import Mathlib

/-
Verification of the TekeTeke settlement engine and USSD code-pool allocator.

This file is a shallow embedding of the core logic of `src/server.js`
(the file contains two concatenated server variants; the settlement helpers
`round2`, `getRuleset`, `hasPaidSaccoFeeToday`, `computeSplits`,
`handleMpesaCallback` are textually identical in both, at lines 48-110 /
604-641 and 1527-1578 / 1821-1858).  Monetary values are modelled as exact
rationals (JavaScript numbers are idealised as ℚ; `Math.round` is
`fun x => Int.floor (x + 1/2)`), timestamps as milliseconds-since-epoch
naturals, and the Supabase tables `transactions`, `ledger_entries`,
`sacco_settings` and `ussd_pool` as in-memory lists.  Every operation is a
pure state-passing function; the HTTP layer, authentication and storage
faults are out of scope.
-/

namespace TekeTeke

/-- JS helper `round2 = (n) => Math.round(Number(n || 0) * 100) / 100`
(server.js line 48).  `Math.round x = Int.floor (x + 1/2)`. -/
def round2 (q : ℚ) : ℚ := (Int.floor (q * 100 + 1/2) : ℚ) / 100

/-- Ledger entry `type` column values written by the code
(schema check: FARE | SERVICE_FEE | SACCO_FEE | SAVINGS | LOAN_REPAY).
The spec's name `DAILY_FEE` corresponds to the code's `SACCO_FEE`. -/
inductive EntryType
  | FARE
  | SERVICE_FEE
  | SACCO_FEE
  | SAVINGS
  | LOAN_REPAY
deriving DecidableEq, Repr

/-- Transaction `status` column values (schema check constraint). -/
inductive TxStatus
  | PENDING
  | SUCCESS
  | FAILED
  | TIMEOUT
deriving DecidableEq, Repr

/-- Row of the `sacco_settings` table.  `fare_fee_flat_kes` is kept as an
`Option` because `computeSplits` guards it with `?? 2.5`. -/
structure Ruleset where
  fare_fee_flat_kes : Option ℚ
  savings_percent : ℚ
  sacco_daily_fee_kes : ℚ
  loan_repay_percent : ℚ
deriving DecidableEq, Repr

/-- Default ruleset object returned by `getRuleset` when no
`sacco_settings` row exists (server.js line 74):
`{ fare_fee_flat_kes: 2.5, savings_percent: 5, sacco_daily_fee_kes: 50, loan_repay_percent: 0 }`. -/
def defaultRuleset : Ruleset :=
  { fare_fee_flat_kes := some 2.5
    savings_percent := 5
    sacco_daily_fee_kes := 50
    loan_repay_percent := 0 }

/-- One element of the list returned by `computeSplits`. -/
structure SplitPart where
  type : EntryType
  amount_kes : ℚ
deriving DecidableEq, Repr

/-- JS `computeSplits({ amount, rules, takeDailyFee })` (server.js lines 89-104).
The `parts.push(...)` sequence is modelled as list append of conditional
singletons, preserving order. -/
def computeSplits (amount : ℚ) (rules : Ruleset) (takeDailyFee : Bool) : List SplitPart :=
  let fare := round2 amount
  let serviceFee := round2 ((rules.fare_fee_flat_kes).getD 2.5)
  let savings := round2 (rules.savings_percent / 100 * fare)
  let loanRepay := round2 (rules.loan_repay_percent / 100 * fare)
  let saccoDaily := if takeDailyFee then round2 rules.sacco_daily_fee_kes else 0
  [⟨.FARE, fare⟩, ⟨.SERVICE_FEE, serviceFee⟩]
    ++ (if saccoDaily > 0 then [⟨.SACCO_FEE, saccoDaily⟩] else [])
    ++ (if savings > 0 then [⟨.SAVINGS, savings⟩] else [])
    ++ (if loanRepay > 0 then [⟨.LOAN_REPAY, loanRepay⟩] else [])

/-- JS `sumDigits(str)` (server.js line 107) applied to the decimal
representation of a natural number: the iterated `n % 10` digits are exactly
the characters of `String(n)`. -/
def sumDigits (n : Nat) : Nat :=
  if n = 0 then 0 else n % 10 + sumDigits (n / 10)
decreasing_by exact Nat.div_lt_self (Nat.pos_of_ne_zero (by assumption)) (by norm_num)

theorem sumDigits_le (n : Nat) : sumDigits n ≤ n := by
  induction n using Nat.strong_induction_on with
  | _ n ih =>
    rw [sumDigits]
    split
    · omega
    · have h1 : n / 10 < n :=
        Nat.div_lt_self (Nat.pos_of_ne_zero (by assumption)) (by norm_num)
      have := ih (n / 10) h1
      omega

theorem sumDigits_lt (n : Nat) (h : 10 ≤ n) : sumDigits n < n := by
  rw [sumDigits]
  split
  · omega
  · have h1 : sumDigits (n / 10) ≤ n / 10 := sumDigits_le (n / 10)
    omega

theorem sumDigits_pos (n : Nat) (h : 1 ≤ n) : 1 ≤ sumDigits n := by
  induction n using Nat.strong_induction_on with
  | _ n ih =>
    rw [sumDigits]
    split
    · omega
    · rename_i hne
      by_cases h10 : 10 ≤ n
      · have h1 : n / 10 < n := Nat.div_lt_self (by omega) (by norm_num)
        have h2 : 1 ≤ n / 10 := by omega
        have := ih (n / 10) h1 h2
        omega
      · have hmod : n % 10 = n := Nat.mod_eq_of_lt (by omega)
        omega

/-- Loop `while (s > 9) s = sumDigits(String(s))` from JS `digitalRoot`
(server.js line 108). -/
def digitalRootLoop (s : Nat) : Nat :=
  if 9 < s then digitalRootLoop (sumDigits s) else s
termination_by s
decreasing_by exact sumDigits_lt s (by omega)

/-- JS `digitalRoot(n)` (server.js line 108). -/
def digitalRoot (n : Nat) : Nat := digitalRootLoop (sumDigits n)

/-- Numeric value of a decimal digit character. -/
def digitVal (c : Char) : Nat := c.toNat - 48

/-- Match of the regex `(\d{3})(\d)(?=#|$)` at the head of the character
list: three digits, a fourth digit, and lookahead `#` or end of input. -/
def ussdMatchHere : List Char → Option (Nat × Nat)
  | a :: b :: c :: d :: rest =>
    if a.isDigit && b.isDigit && c.isDigit && d.isDigit
        && (rest.isEmpty || rest.head? == some '#') then
      some (digitVal a * 100 + digitVal b * 10 + digitVal c, digitVal d)
    else none
  | _ => none

/-- Leftmost-match search of the regex over the string, as
`String(ussd).match(...)` performs. -/
def ussdScan : List Char → Option (Nat × Nat)
  | [] => none
  | x :: rest =>
    match ussdMatchHere (x :: rest) with
    | some r => some r
    | none => ussdScan rest

/-- JS `parseUssdDigits(ussd)` (server.js line 109): returns the numeric
value of the 3-digit `base` together with the single checksum digit, or
`none` when the pattern does not occur.  Bases are modelled as naturals
(zero-padded 3-digit strings "001".."999" are in numeric-order-preserving
bijection with 1..999). -/
def parseUssdDigits (s : String) : Option (Nat × Nat) := ussdScan s.data

/-- Row of the `ussd_pool` table. -/
structure PoolEntry where
  base : Nat
  checksum : Nat
  allocated : Bool
  level : Option String
  sacco_id : Option String
  matatu_id : Option String
  cashier_id : Option String
  allocated_at : Option Nat
deriving DecidableEq, Repr

/-- Result of `resolveTarget` (server.js lines 934-939): the validated
owner of an allocation. -/
structure Target where
  assigned_type : String
  assigned_id : String
deriving DecidableEq, Repr

/-- Field update performed by both pool UPDATE statements
(server.js lines 882-892 and 917-927). -/
def allocateEntry (t : Target) (now : Nat) (e : PoolEntry) : PoolEntry :=
  { e with
    allocated := true
    level := some t.assigned_type
    sacco_id := if t.assigned_type = "SACCO" then some t.assigned_id else none
    matatu_id := if t.assigned_type = "MATATU" then some t.assigned_id else none
    cashier_id := if t.assigned_type = "CASHIER" then some t.assigned_id else none
    allocated_at := some now }

/-- The row produced by `ORDER BY base ASC LIMIT 1`: the first entry whose
`base` is minimal. -/
def minFree : List PoolEntry → Option PoolEntry
  | [] => none
  | e :: rest =>
    match minFree rest with
    | none => some e
    | some m => if e.base ≤ m.base then some e else some m

/-- Errors surfaced by the two pool endpoints.  The spec's names:
`OutOfCodesError` = "no free codes in pool", `ChecksumMismatch` =
"checksum mismatch; expected N", `UnknownBase` = "base not in pool",
`AlreadyAllocated` = "already allocated". -/
inductive PoolError
  | outOfCodes
  | invalidFormat
  | checksumMismatch (expected : Nat)
  | unknownBase
  | alreadyAllocated
deriving DecidableEq, Repr

/-- POST `/api/admin/ussd/pool/assign-next` core (server.js lines 867-897):
select the unallocated row with smallest base, mark every row with that
base allocated to the target, return base and checksum. -/
def assignNext (t : Target) (now : Nat) (pool : List PoolEntry) :
    Except PoolError (Nat × Nat × List PoolEntry) :=
  match minFree (pool.filter (fun e => !e.allocated)) with
  | none => .error .outOfCodes
  | some e =>
    .ok (e.base, e.checksum,
      pool.map (fun x => if x.base = e.base then allocateEntry t now x else x))

/-- POST `/api/admin/ussd/bind-from-pool` core (server.js lines 899-932):
parse the code, check the digital-root checksum, look the base up in the
pool (`maybeSingle`, modelled as first match), reject when missing or
already allocated, otherwise allocate. -/
def bindSpecific (t : Target) (ussd_code : String) (now : Nat)
    (pool : List PoolEntry) : Except PoolError (List PoolEntry) :=
  match parseUssdDigits ussd_code with
  | none => .error .invalidFormat
  | some (base, check) =>
    if digitalRoot base ≠ check then .error (.checksumMismatch (digitalRoot base))
    else
      match pool.find? (fun e => e.base == base) with
      | none => .error .unknownBase
      | some e =>
        if e.allocated then .error .alreadyAllocated
        else .ok (pool.map (fun x => if x.base = base then allocateEntry t now x else x))

/-- Milliseconds in a day; timestamps are ms since epoch. -/
def dayMs : Nat := 86400000

/-- JS `startOfDayISO()` (server.js line 49), idealised: the midnight
preceding `t`. -/
def startOfDay (t : Nat) : Nat := t / dayMs * dayMs

/-- Row of the `transactions` table (fields used by the core). -/
structure Tx where
  id : Nat
  sacco_id : String
  matatu_id : Option String
  cashier_id : Option String
  ussd_code : Option String
  passenger_msisdn : Option String
  fare_amount_kes : ℚ
  service_fee_kes : ℚ
  status : TxStatus
  mpesa_checkout_id : String
  mpesa_receipt : Option String
  created_at : Nat
deriving DecidableEq, Repr

/-- Row of the `ledger_entries` table (fields written by the settlement). -/
structure LedgerEntry where
  transaction_id : Nat
  sacco_id : String
  matatu_id : Option String
  type : EntryType
  amount_kes : ℚ
  created_at : Nat
deriving DecidableEq, Repr

/-- The persistent store: the three tables the settlement core touches,
plus a counter standing in for uuid generation. -/
structure DB where
  transactions : List Tx
  ledger : List LedgerEntry
  sacco_settings : List (String × Ruleset)
  nextId : Nat
deriving DecidableEq, Repr

def emptyDB : DB := ⟨[], [], [], 1⟩

/-- JS `getRuleset(sacco_id)` (server.js lines 71-75): the row for the
sacco, or the default object when absent. -/
def getRuleset (db : DB) (sacco_id : String) : Ruleset :=
  match db.sacco_settings.lookup sacco_id with
  | some r => r
  | none => defaultRuleset

/-- JS `hasPaidSaccoFeeToday(matatu_id)` (server.js lines 77-87): does any
`ledger_entries` row for this matatu with type SACCO_FEE have
`created_at >= startOfDayISO()`? -/
def hasPaidSaccoFeeToday (db : DB) (matatu_id : String) (now : Nat) : Bool :=
  db.ledger.any (fun e =>
    decide (e.matatu_id = some matatu_id ∧ e.type = .SACCO_FEE ∧
      startOfDay now ≤ e.created_at))

/-- JS truthiness of an optional string: `undefined`/`null`/`""` are falsy. -/
def falsyStr : Option String → Bool
  | none => true
  | some s => decide (s = "")

/-- JS `x || null` on an optional string. -/
def orNull (o : Option String) : Option String :=
  if falsyStr o then none else o

/-- Payment confirmation payload consumed by `handleMpesaCallback`.
Spec names: external_reference = checkout_id, tenant_id = sacco_id,
vehicle_id = matatu_id, counterpart_id = cashier_id,
payer_reference = msisdn. -/
structure CallbackPayload where
  checkout_id : Option String
  success : Bool
  amount : Option ℚ
  msisdn : Option String
  sacco_id : Option String
  matatu_id : Option String
  cashier_id : Option String
  ussd_code : Option String
  receipt : Option String
deriving DecidableEq, Repr

/-- Column values written by the transaction upsert (`baseTx`,
server.js lines 608-617). -/
structure BaseTx where
  sacco_id : String
  matatu_id : Option String
  cashier_id : Option String
  ussd_code : Option String
  passenger_msisdn : Option String
  fare_amount_kes : ℚ
  service_fee_kes : ℚ
  status : TxStatus
  mpesa_checkout_id : String
  mpesa_receipt : Option String
  created_at : Nat
deriving DecidableEq, Repr

/-- Overwrite of an existing row by the upsert (all `baseTx` columns; the
primary key `id` is preserved). -/
def applyBase (b : BaseTx) (t : Tx) : Tx :=
  { id := t.id
    sacco_id := b.sacco_id
    matatu_id := b.matatu_id
    cashier_id := b.cashier_id
    ussd_code := b.ussd_code
    passenger_msisdn := b.passenger_msisdn
    fare_amount_kes := b.fare_amount_kes
    service_fee_kes := b.service_fee_kes
    status := b.status
    mpesa_checkout_id := b.mpesa_checkout_id
    mpesa_receipt := b.mpesa_receipt
    created_at := b.created_at }

/-- Fresh row created by the upsert when no row has the checkout id. -/
def newTx (b : BaseTx) (id : Nat) : Tx :=
  { id := id
    sacco_id := b.sacco_id
    matatu_id := b.matatu_id
    cashier_id := b.cashier_id
    ussd_code := b.ussd_code
    passenger_msisdn := b.passenger_msisdn
    fare_amount_kes := b.fare_amount_kes
    service_fee_kes := b.service_fee_kes
    status := b.status
    mpesa_checkout_id := b.mpesa_checkout_id
    mpesa_receipt := b.mpesa_receipt
    created_at := b.created_at }

/-- `upsert(baseTx, { onConflict: 'mpesa_checkout_id' }).select().single()`
(server.js lines 619-624): update the (unique) row with this checkout id in
place, or append a fresh row; return the resulting row.  The third
component is the uuid counter. -/
def upsertTx : List Tx → BaseTx → Nat → Tx × List Tx × Nat
  | [], b, nid => (newTx b nid, [newTx b nid], nid + 1)
  | t :: rest, b, nid =>
    if t.mpesa_checkout_id = b.mpesa_checkout_id then
      (applyBase b t, applyBase b t :: rest, nid)
    else
      let r := upsertTx rest b nid
      (r.1, t :: r.2.1, r.2.2)

/-- Daily-fee gate expression
`matatu_id ? await hasPaidSaccoFeeToday(matatu_id) : false`
(server.js line 628): false when the payload has no (or an empty, i.e.
falsy) vehicle id, otherwise the ledger query. -/
def dailyGate (p : CallbackPayload) (db : DB) (now : Nat) : Bool :=
  match p.matatu_id with
  | some m => if m = "" then false else hasPaidSaccoFeeToday db m now
  | none => false

/-- JS `handleMpesaCallback(payload)` (server.js lines 604-641 and
1821-1858, identical).  Validate, upsert the transaction keyed by
checkout id, stop on failure payloads, otherwise fetch rules, consult the
daily-fee gate, compute splits and append one ledger row per split.
The only `throw` reachable in this model is the validation throw; storage
faults are not modelled. -/
def handleMpesaCallback (p : CallbackPayload) (now : Nat) (db : DB) :
    Except String DB :=
  if falsyStr p.checkout_id || p.amount.isNone || falsyStr p.sacco_id then
    .error "checkout_id, amount, sacco_id required"
  else
    let checkout := p.checkout_id.getD ""
    let amount := p.amount.getD 0
    let sacco := p.sacco_id.getD ""
    let base : BaseTx :=
      { sacco_id := sacco
        matatu_id := p.matatu_id
        cashier_id := p.cashier_id
        ussd_code := p.ussd_code
        passenger_msisdn := orNull p.msisdn
        fare_amount_kes := round2 amount
        service_fee_kes := 2.5
        status := if p.success then .SUCCESS else .FAILED
        mpesa_checkout_id := checkout
        mpesa_receipt := orNull p.receipt
        created_at := now }
    let up := upsertTx db.transactions base db.nextId
    let db1 : DB := { db with transactions := up.2.1, nextId := up.2.2 }
    if !p.success then .ok db1
    else
      let rules := getRuleset db1 sacco
      let dailyDone := dailyGate p db1 now
      let splits := computeSplits amount rules (!dailyDone)
      let entries := splits.map (fun s =>
        ({ transaction_id := up.1.id
           sacco_id := sacco
           matatu_id := p.matatu_id
           type := s.type
           amount_kes := s.amount_kes
           created_at := now } : LedgerEntry))
      .ok { db1 with ledger := db1.ledger ++ entries }

/-- State transition of the POST `/api/cashier/callback/mpesa` route
(server.js lines 594-602): the handler catches the throw and responds 200,
so a validation failure leaves the store as it was. -/
def applyCallback (p : CallbackPayload) (now : Nat) (db : DB) : DB :=
  match handleMpesaCallback p now db with
  | .ok db' => db'
  | .error _ => db

/-- POST `/api/cashier/initiate` core (server.js lines 1776-1809): insert a
PENDING transaction.  The route also schedules
`handleMpesaCallback({success: true, ...})` 5000 ms later via `setTimeout`;
that deferred event is modelled as a separate later `applyCallback` step.
`service_fee_kes` takes the schema default 2.50 (the insert omits it).
The generated checkout id is passed in as `checkout_id`. -/
def initiate (amount : ℚ) (msisdn : String) (sacco_id : String)
    (matatu_id cashier_id ussd_code : Option String)
    (checkout_id : String) (now : Nat) (db : DB) :
    Except String (DB × Nat) :=
  if amount = 0 || decide (msisdn = "") || decide (sacco_id = "") then
    .error "amount, msisdn, sacco_id required"
  else
    let tx : Tx :=
      { id := db.nextId
        sacco_id := sacco_id
        matatu_id := matatu_id
        cashier_id := cashier_id
        ussd_code := ussd_code
        passenger_msisdn := some msisdn
        fare_amount_kes := round2 amount
        service_fee_kes := 2.5
        status := .PENDING
        mpesa_checkout_id := checkout_id
        mpesa_receipt := none
        created_at := now }
    .ok ({ db with transactions := db.transactions ++ [tx], nextId := db.nextId + 1 },
      db.nextId)

/-- `DEV_AUTOPAY_ON = DEV_AUTOPAY === 'true' || NODE_ENV !== 'production'`
(server.js line 1511; `DEV_AUTOPAY` defaults to `'true'`). -/
def devAutopayOn (dev_autopay node_env : String) : Bool :=
  dev_autopay == "true" || node_env != "production"

/-- Lookup `by primary id first, then by checkout id` done by the status
route (server.js lines 1866-1879). -/
def findTxByKey (db : DB) (key : String) : Option Tx :=
  match db.transactions.find? (fun t => toString t.id == key) with
  | some t => some t
  | none => db.transactions.find? (fun t => t.mpesa_checkout_id == key)

/-- In-place status update `update({ status: 'SUCCESS' }).eq('id', tx.id)`. -/
def updateTxStatus (id : Nat) (st : TxStatus) (l : List Tx) : List Tx :=
  l.map (fun t => if t.id = id then { t with status := st } else t)

/-- GET `/api/cashier/status/:id` of the dev-autopay server variant
(server.js lines 1861-1897).  Returns `(final, status)` and the possibly
updated store: when autopay is on and the transaction has been PENDING for
more than 3000 ms it is promoted to SUCCESS as a side effect of the read,
and no ledger row is written. -/
def statusEndpoint (key : String) (now : Nat) (autopay : Bool) (db : DB) :
    (Bool × TxStatus) × DB :=
  match findTxByKey db key with
  | none => ((true, .FAILED), db)
  | some tx =>
    if autopay && decide (tx.status = .PENDING) && decide (3000 < now - tx.created_at) then
      (((true, .SUCCESS)),
        { db with transactions := updateTxStatus tx.id .SUCCESS db.transactions })
    else
      ((decide (tx.status = .SUCCESS ∨ tx.status = .FAILED ∨ tx.status = .TIMEOUT),
        tx.status), db)

/-- Number of SACCO_FEE (spec: DAILY_FEE) ledger rows for vehicle `m`
dated on or after the start of `T`'s day — the quantity the daily-fee gate
queries. -/
def saccoFeeCount (db : DB) (m : String) (T : Nat) : Nat :=
  (db.ledger.filter (fun e =>
    decide (e.matatu_id = some m ∧ e.type = .SACCO_FEE ∧
      startOfDay T ≤ e.created_at))).length

/-- Scenario C confirmation: external_reference X1, success, amount 40,
tenant S, no vehicle. -/
def payloadX1 : CallbackPayload :=
  { checkout_id := some "X1"
    success := true
    amount := some 40
    msisdn := none
    sacco_id := some "S"
    matatu_id := none
    cashier_id := none
    ussd_code := none
    receipt := none }

/-- Vehicleless confirmation V1 (same shape as X1, distinct reference),
used to exercise the daily-fee gate with an absent vehicle id. -/
def payloadV1 : CallbackPayload :=
  { checkout_id := some "V1"
    success := true
    amount := some 40
    msisdn := none
    sacco_id := some "S"
    matatu_id := none
    cashier_id := none
    ussd_code := none
    receipt := none }

/-- The PENDING transaction row `initiate 40 ... "CHK1"` inserts at time 0
into the empty store. -/
def txC2 : Tx :=
  { id := 1
    sacco_id := "S"
    matatu_id := none
    cashier_id := none
    ussd_code := none
    passenger_msisdn := some "254700000001"
    fare_amount_kes := 40
    service_fee_kes := 2.5
    status := .PENDING
    mpesa_checkout_id := "CHK1"
    mpesa_receipt := none
    created_at := 0 }

/-- The store right after that initiate call. -/
def dbC2 : DB :=
  { transactions := [txC2]
    ledger := []
    sacco_settings := []
    nextId := 2 }

/-- Concrete PENDING transaction (checkout CHK9, created at time 0) used to
exercise the dev-autopay status endpoint. -/
def txPend : Tx :=
  { id := 1
    sacco_id := "S"
    matatu_id := none
    cashier_id := none
    ussd_code := none
    passenger_msisdn := none
    fare_amount_kes := 40
    service_fee_kes := 2.5
    status := .PENDING
    mpesa_checkout_id := "CHK9"
    mpesa_receipt := none
    created_at := 0 }

/-- Store holding just `txPend` and an empty ledger. -/
def dbPend : DB :=
  { transactions := [txPend]
    ledger := []
    sacco_settings := []
    nextId := 2 }

/-! ## Basic lemmas about rounding and splits -/

theorem round2_nonneg (q : ℚ) (h : 0 ≤ q) : 0 ≤ round2 q := by
  unfold round2
  have h1 : (0 : ℤ) ≤ Int.floor (q * 100 + 1/2) := by
    apply Int.le_floor.mpr
    push_cast
    nlinarith
  positivity

theorem computeSplits_ne_nil (amount : ℚ) (rules : Ruleset) (tk : Bool) :
    computeSplits amount rules tk ≠ [] := by
  unfold computeSplits
  simp

/-- C3: the sum of the returned line items equals
amount + SERVICE_FEE + (DAILY_FEE when charged) + SAVINGS + LOAN_REPAY,
for a valid (2-decimal, non-negative) amount and a valid policy
(non-negative percentages and daily fee).  Components excluded from the
list by the `> 0` guards are exactly the zero ones, so nothing is dropped
or duplicated. -/
theorem computeSplits_sum_invariant
    (amount : ℚ) (rules : Ruleset) (chargeDailyFee : Bool)
    (hA : round2 amount = amount) (hA0 : 0 ≤ amount)
    (hS : 0 ≤ rules.savings_percent) (hL : 0 ≤ rules.loan_repay_percent)
    (hD : 0 ≤ rules.sacco_daily_fee_kes) :
    ((computeSplits amount rules chargeDailyFee).map SplitPart.amount_kes).sum
      = amount + round2 ((rules.fare_fee_flat_kes).getD 2.5)
        + (if chargeDailyFee then round2 rules.sacco_daily_fee_kes else 0)
        + round2 (rules.savings_percent / 100 * amount)
        + round2 (rules.loan_repay_percent / 100 * amount) := by
  have hsav : 0 ≤ round2 (rules.savings_percent / 100 * amount) :=
    round2_nonneg _ (mul_nonneg (div_nonneg hS (by norm_num)) hA0)
  have hloa : 0 ≤ round2 (rules.loan_repay_percent / 100 * amount) :=
    round2_nonneg _ (mul_nonneg (div_nonneg hL (by norm_num)) hA0)
  have hdai : 0 ≤ round2 rules.sacco_daily_fee_kes := round2_nonneg _ hD
  unfold computeSplits
  rw [hA]
  cases chargeDailyFee <;>
    by_cases hd : (0:ℚ) < round2 rules.sacco_daily_fee_kes <;>
    by_cases hsv : (0:ℚ) < round2 (rules.savings_percent / 100 * amount) <;>
    by_cases hlp : (0:ℚ) < round2 (rules.loan_repay_percent / 100 * amount) <;>
    simp [hd, hsv, hlp, List.sum_append] <;> linarith

/-- Witness for C3: Scenario A of the spec, amount 100 with the default
policy and the daily fee charged, total 100 + 2.50 + 50 + 5 = 157.50. -/
theorem computeSplits_sum_invariant_witness :
    ((computeSplits 100 defaultRuleset true).map SplitPart.amount_kes).sum = 315/2 := by
  have h := computeSplits_sum_invariant 100 defaultRuleset true
    (by norm_num [round2]) (by norm_num)
    (by norm_num [defaultRuleset]) (by norm_num [defaultRuleset])
    (by norm_num [defaultRuleset])
  rw [h]
  norm_num [defaultRuleset, round2]

/-- C4: unconditional FARE and SERVICE_FEE line items (SERVICE_FEE even when
zero), DAILY_FEE (code name SACCO_FEE) only when `chargeDailyFee` holds and
the rounded fee is positive, SAVINGS / LOAN_REPAY only when positive, and
the items occur in the canonical order. -/
theorem computeSplits_types_spec (amount : ℚ) (rules : Ruleset) (takeDailyFee : Bool) :
    (EntryType.FARE ∈ (computeSplits amount rules takeDailyFee).map SplitPart.type
      ∧ EntryType.SERVICE_FEE ∈ (computeSplits amount rules takeDailyFee).map SplitPart.type)
    ∧ (EntryType.SACCO_FEE ∈ (computeSplits amount rules takeDailyFee).map SplitPart.type
        ↔ takeDailyFee = true ∧ 0 < round2 rules.sacco_daily_fee_kes)
    ∧ (EntryType.SAVINGS ∈ (computeSplits amount rules takeDailyFee).map SplitPart.type
        ↔ 0 < round2 (rules.savings_percent / 100 * round2 amount))
    ∧ (EntryType.LOAN_REPAY ∈ (computeSplits amount rules takeDailyFee).map SplitPart.type
        ↔ 0 < round2 (rules.loan_repay_percent / 100 * round2 amount))
    ∧ ((computeSplits amount rules takeDailyFee).map SplitPart.type).Sublist
        [.FARE, .SERVICE_FEE, .SACCO_FEE, .SAVINGS, .LOAN_REPAY] := by
  unfold computeSplits
  cases takeDailyFee <;>
    by_cases hd : (0:ℚ) < round2 rules.sacco_daily_fee_kes <;>
    by_cases hsv : (0:ℚ) < round2 (rules.savings_percent / 100 * round2 amount) <;>
    by_cases hlp : (0:ℚ) < round2 (rules.loan_repay_percent / 100 * round2 amount) <;>
    simp [hd, hsv, hlp]

/-! ## Digital root and code-pool lemmas -/

theorem digitalRootLoop_le_nine (s : Nat) : digitalRootLoop s ≤ 9 := by
  induction s using Nat.strong_induction_on with
  | _ s ih =>
    rw [digitalRootLoop]
    split
    · exact ih (sumDigits s) (sumDigits_lt s (by omega))
    · omega

theorem digitalRootLoop_pos (s : Nat) (h : 1 ≤ s) : 1 ≤ digitalRootLoop s := by
  induction s using Nat.strong_induction_on with
  | _ s ih =>
    rw [digitalRootLoop]
    split
    · exact ih (sumDigits s) (sumDigits_lt s (by omega)) (sumDigits_pos s (by omega))
    · omega

theorem minFree_none {l : List PoolEntry} (h : minFree l = none) : l = [] := by
  cases l with
  | nil => rfl
  | cons x rest =>
    rw [minFree] at h
    cases hm : minFree rest with
    | none => rw [hm] at h; simp at h
    | some m => rw [hm] at h; by_cases hb : x.base ≤ m.base <;> simp [hb] at h

theorem minFree_mem : ∀ {l : List PoolEntry} {e : PoolEntry}, minFree l = some e → e ∈ l := by
  intro l
  induction l with
  | nil => intro e h; simp [minFree] at h
  | cons x rest ih =>
    intro e h
    rw [minFree] at h
    cases hm : minFree rest with
    | none =>
      rw [hm] at h
      simp at h
      simp [h]
    | some m =>
      rw [hm] at h
      by_cases hb : x.base ≤ m.base
      · simp [hb] at h
        simp [h]
      · simp [hb] at h
        exact List.mem_cons_of_mem x (h ▸ ih hm)

theorem minFree_le : ∀ (l : List PoolEntry) (e : PoolEntry), minFree l = some e →
    ∀ x ∈ l, e.base ≤ x.base := by
  intro l
  induction l with
  | nil => intro e h; simp [minFree] at h
  | cons y rest ih =>
    intro e h x hx
    rw [minFree] at h
    cases hm : minFree rest with
    | none =>
      rw [hm] at h
      simp at h
      have hr : rest = [] := minFree_none hm
      subst hr
      simp at hx
      subst h; subst hx
      exact le_refl _
    | some m =>
      rw [hm] at h
      have hmle := ih m hm
      by_cases hb : y.base ≤ m.base
      · simp [hb] at h
        subst h
        rcases List.mem_cons.mp hx with rfl | hx'
        · exact le_refl _
        · exact le_trans hb (hmle x hx')
      · simp [hb] at h
        subst h
        rcases List.mem_cons.mp hx with rfl | hx'
        · omega
        · exact hmle x hx'

theorem allocateEntry_base (t : Target) (now : Nat) (e : PoolEntry) :
    (allocateEntry t now e).base = e.base := rfl

theorem allocateEntry_allocated (t : Target) (now : Nat) (e : PoolEntry) :
    (allocateEntry t now e).allocated = true := rfl

/-- C7: the digital root is a deterministic single digit in 1..9 for every
positive base (in particular for 001..999); `bindSpecific` rejects a parsed
code with `ChecksumMismatch` whenever the provided digit differs from the
digital root of the base, and any accepted code has a matching digit. -/
theorem digitalRoot_checksum_spec :
    (∀ b : Nat, 1 ≤ b → 1 ≤ digitalRoot b ∧ digitalRoot b ≤ 9)
    ∧ (∀ (t : Target) (s : String) (now : Nat) (pool : List PoolEntry) (b c : Nat),
        parseUssdDigits s = some (b, c) → digitalRoot b ≠ c →
        bindSpecific t s now pool = .error (.checksumMismatch (digitalRoot b)))
    ∧ (∀ (t : Target) (s : String) (now : Nat) (pool : List PoolEntry)
        (res : List PoolEntry),
        bindSpecific t s now pool = .ok res →
        ∃ b c, parseUssdDigits s = some (b, c) ∧ digitalRoot b = c) := by
  refine ⟨?_, ?_, ?_⟩
  · intro b hb
    exact ⟨digitalRootLoop_pos _ (sumDigits_pos b hb), digitalRootLoop_le_nine _⟩
  · intro t s now pool b c hp hne
    unfold bindSpecific
    rw [hp]
    simp [hne]
  · intro t s now pool res hok
    unfold bindSpecific at hok
    cases hp : parseUssdDigits s with
    | none => rw [hp] at hok; simp at hok
    | some bc =>
      obtain ⟨b, c⟩ := bc
      rw [hp] at hok
      refine ⟨b, c, rfl, ?_⟩
      by_contra hne
      simp [hne] at hok

/-- Witness for C7: base 110 has digital root 2 (in 1..9), and code
`*001*1103#` (wrong trailing digit 3) is rejected with a checksum
mismatch. -/
theorem digitalRoot_checksum_spec_witness :
    (1 ≤ digitalRoot 110 ∧ digitalRoot 110 ≤ 9)
    ∧ bindSpecific ⟨"SACCO", "S1"⟩ "*001*1103#" 0 [] =
        .error (.checksumMismatch (digitalRoot 110)) :=
  ⟨digitalRoot_checksum_spec.1 110 (by norm_num),
   digitalRoot_checksum_spec.2.1 ⟨"SACCO", "S1"⟩ "*001*1103#" 0 [] 110 3
     (by decide) (by simp [digitalRoot, digitalRootLoop, sumDigits])⟩

/-- C8: a successful `assignNext` returns a currently-free entry of
numerically smallest base and marks every row with that base allocated;
two consecutive successful calls therefore return strictly increasing
bases; once every entry is allocated, every call fails with
`OutOfCodesError` ("no free codes in pool"). -/
theorem assignNext_spec :
    (∀ (t : Target) (now : Nat) (pool : List PoolEntry) (b c : Nat)
        (pool' : List PoolEntry),
        assignNext t now pool = .ok (b, c, pool') →
        (∃ e ∈ pool, e.allocated = false ∧ e.base = b ∧ e.checksum = c)
        ∧ (∀ e ∈ pool, e.allocated = false → b ≤ e.base)
        ∧ (∀ e ∈ pool', e.base = b → e.allocated = true)
        ∧ (∀ e ∈ pool', e.base ≠ b → e ∈ pool))
    ∧ (∀ t1 now1 pool b1 c1 pool1 t2 now2 b2 c2 pool2,
        assignNext t1 now1 pool = .ok (b1, c1, pool1) →
        assignNext t2 now2 pool1 = .ok (b2, c2, pool2) →
        b1 < b2)
    ∧ (∀ (t : Target) (now : Nat) (pool : List PoolEntry),
        (∀ e ∈ pool, e.allocated = true) →
        assignNext t now pool = .error .outOfCodes) := by
  have key : ∀ (t : Target) (now : Nat) (pool : List PoolEntry) (b c : Nat)
      (pool' : List PoolEntry),
      assignNext t now pool = .ok (b, c, pool') →
      (∃ e ∈ pool, e.allocated = false ∧ e.base = b ∧ e.checksum = c)
      ∧ (∀ e ∈ pool, e.allocated = false → b ≤ e.base)
      ∧ (∀ e ∈ pool', e.base = b → e.allocated = true)
      ∧ (∀ e ∈ pool', e.base ≠ b → e ∈ pool) := by
    intro t now pool b c pool' hok
    unfold assignNext at hok
    cases hm : minFree (pool.filter (fun e => !e.allocated)) with
    | none => rw [hm] at hok; simp at hok
    | some e =>
      rw [hm] at hok
      simp at hok
      obtain ⟨hb, hc, hpool⟩ := hok
      have hmem := minFree_mem hm
      have hfil := List.mem_filter.mp hmem
      refine ⟨⟨e, hfil.1, by simpa using hfil.2, hb, hc⟩, ?_, ?_, ?_⟩
      · intro x hx hxfree
        have hxf : x ∈ pool.filter (fun e => !e.allocated) :=
          List.mem_filter.mpr ⟨hx, by simp [hxfree]⟩
        exact hb ▸ minFree_le _ e hm x hxf
      · intro x hx hxb
        rw [← hpool] at hx
        obtain ⟨y, hy, hyx⟩ := List.mem_map.mp hx
        by_cases hyb : y.base = e.base
        · rw [if_pos hyb] at hyx
          rw [← hyx]
          rfl
        · rw [if_neg hyb] at hyx
          rw [← hyx] at hxb
          rw [← hb] at hxb
          exact absurd hxb hyb
      · intro x hx hxb
        rw [← hpool] at hx
        obtain ⟨y, hy, hyx⟩ := List.mem_map.mp hx
        by_cases hyb : y.base = e.base
        · rw [if_pos hyb] at hyx
          have hxe : x.base = e.base := by
            rw [← hyx]; exact hyb ▸ allocateEntry_base t now y
          exact absurd (hxe.trans hb) hxb
        · rw [if_neg hyb] at hyx
          rw [← hyx]
          exact hy
  refine ⟨key, ?_, ?_⟩
  · intro t1 now1 pool b1 c1 pool1 t2 now2 b2 c2 pool2 h1 h2
    obtain ⟨_, hmin1, hall1, hkeep1⟩ := key _ _ _ _ _ _ h1
    obtain ⟨⟨e2, he2, he2free, he2b, _⟩, _, _, _⟩ := key _ _ _ _ _ _ h2
    have hne : e2.base ≠ b1 := by
      intro hcontra
      have := hall1 e2 he2 hcontra
      rw [he2free] at this
      exact Bool.false_ne_true this
    have he2pool : e2 ∈ pool := hkeep1 e2 he2 hne
    have hle : b1 ≤ e2.base := hmin1 e2 he2pool he2free
    omega
  · intro t now pool hall
    unfold assignNext
    have hfil : pool.filter (fun e => !e.allocated) = [] := by
      rw [List.filter_eq_nil_iff]
      intro a ha
      simp [hall a ha]
    rw [hfil]
    rfl

/-- Witness for C8: on a two-entry free pool (listed out of order) the
first call returns base 1, the second returns base 2, and the theorem
yields 1 < 2. -/
theorem assignNext_spec_witness :
    ∃ pool1 pool2 : List PoolEntry,
      assignNext ⟨"SACCO", "S1"⟩ 7
        [{ base := 2, checksum := 2, allocated := false, level := none,
           sacco_id := none, matatu_id := none, cashier_id := none, allocated_at := none },
         { base := 1, checksum := 1, allocated := false, level := none,
           sacco_id := none, matatu_id := none, cashier_id := none, allocated_at := none }]
        = .ok (1, 1, pool1)
      ∧ assignNext ⟨"SACCO", "S1"⟩ 8 pool1 = .ok (2, 2, pool2)
      ∧ (1 : Nat) < 2 := by
  refine ⟨_, _, rfl, rfl, ?_⟩
  exact assignNext_spec.2.1 ⟨"SACCO", "S1"⟩ 7
    [{ base := 2, checksum := 2, allocated := false, level := none,
       sacco_id := none, matatu_id := none, cashier_id := none, allocated_at := none },
     { base := 1, checksum := 1, allocated := false, level := none,
       sacco_id := none, matatu_id := none, cashier_id := none, allocated_at := none }]
    1 1 _ ⟨"SACCO", "S1"⟩ 8 2 2 _ rfl rfl

theorem allocMap_marks (t : Target) (now b : Nat) (pool : List PoolEntry) :
    ∀ x ∈ pool.map (fun x => if x.base = b then allocateEntry t now x else x),
      x.base = b → x.allocated = true := by
  intro x hx hxb
  obtain ⟨y, hy, hyx⟩ := List.mem_map.mp hx
  by_cases hyb : y.base = b
  · rw [if_pos hyb] at hyx
    rw [← hyx]
    rfl
  · rw [if_neg hyb] at hyx
    rw [← hyx] at hxb
    exact absurd hxb hyb

/-- C9: with a well-formed code whose checksum matches, `bindSpecific`
fails with `UnknownBase` when no pool row has the base, fails with
`AlreadyAllocated` when the row is already allocated, and otherwise marks
the row allocated and succeeds; concretely, `*001*1102#` (base 110,
digital root 2) binds once on a pool holding a free base-110 row and a
second attempt fails with `AlreadyAllocated`. -/
theorem bindSpecific_spec :
    (∀ (t : Target) (s : String) (now : Nat) (pool : List PoolEntry) (b c : Nat),
        parseUssdDigits s = some (b, c) → digitalRoot b = c →
        (∀ e ∈ pool, e.base ≠ b) →
        bindSpecific t s now pool = .error .unknownBase)
    ∧ (∀ (t : Target) (s : String) (now : Nat) (pool : List PoolEntry)
        (b c : Nat) (e : PoolEntry),
        parseUssdDigits s = some (b, c) → digitalRoot b = c →
        pool.find? (fun x => x.base == b) = some e → e.allocated = true →
        bindSpecific t s now pool = .error .alreadyAllocated)
    ∧ (∀ (t : Target) (s : String) (now : Nat) (pool : List PoolEntry)
        (b c : Nat) (e : PoolEntry),
        parseUssdDigits s = some (b, c) → digitalRoot b = c →
        pool.find? (fun x => x.base == b) = some e → e.allocated = false →
        bindSpecific t s now pool =
          .ok (pool.map (fun x => if x.base = b then allocateEntry t now x else x))
        ∧ ∀ x ∈ pool.map (fun x => if x.base = b then allocateEntry t now x else x),
            x.base = b → x.allocated = true)
    ∧ (bindSpecific ⟨"SACCO", "S1"⟩ "*001*1102#" 5
        [{ base := 110, checksum := 2, allocated := false, level := none,
           sacco_id := none, matatu_id := none, cashier_id := none, allocated_at := none }]
        = .ok [{ base := 110, checksum := 2, allocated := true, level := some "SACCO",
                 sacco_id := some "S1", matatu_id := none, cashier_id := none,
                 allocated_at := some 5 }]
       ∧ bindSpecific ⟨"SACCO", "S1"⟩ "*001*1102#" 6
          [{ base := 110, checksum := 2, allocated := true, level := some "SACCO",
             sacco_id := some "S1", matatu_id := none, cashier_id := none,
             allocated_at := some 5 }]
        = .error .alreadyAllocated) := by
  have hp110 : parseUssdDigits "*001*1102#" = some (110, 2) := by decide
  have hr110 : digitalRoot 110 = 2 := by
    simp [digitalRoot, digitalRootLoop, sumDigits]
  have hAlready : ∀ (t : Target) (s : String) (now : Nat) (pool : List PoolEntry)
      (b c : Nat) (e : PoolEntry),
      parseUssdDigits s = some (b, c) → digitalRoot b = c →
      pool.find? (fun x => x.base == b) = some e → e.allocated = true →
      bindSpecific t s now pool = .error .alreadyAllocated := by
    intro t s now pool b c e hp hdr hfind halloc
    simp [bindSpecific, hp, hdr, hfind, halloc]
  have hOkGen : ∀ (t : Target) (s : String) (now : Nat) (pool : List PoolEntry)
      (b c : Nat) (e : PoolEntry),
      parseUssdDigits s = some (b, c) → digitalRoot b = c →
      pool.find? (fun x => x.base == b) = some e → e.allocated = false →
      bindSpecific t s now pool =
        .ok (pool.map (fun x => if x.base = b then allocateEntry t now x else x)) := by
    intro t s now pool b c e hp hdr hfind halloc
    simp [bindSpecific, hp, hdr, hfind, halloc]
  refine ⟨?_, hAlready, ?_, ?_, ?_⟩
  · intro t s now pool b c hp hdr hnone
    have hfind : pool.find? (fun x => x.base == b) = none := by
      rw [List.find?_eq_none]
      intro a ha
      simp [hnone a ha]
    simp [bindSpecific, hp, hdr, hfind]
  · intro t s now pool b c e hp hdr hfind halloc
    exact ⟨hOkGen t s now pool b c e hp hdr hfind halloc, allocMap_marks t now b pool⟩
  · rw [hOkGen ⟨"SACCO", "S1"⟩ "*001*1102#" 5
      [{ base := 110, checksum := 2, allocated := false, level := none,
         sacco_id := none, matatu_id := none, cashier_id := none, allocated_at := none }]
      110 2
      { base := 110, checksum := 2, allocated := false, level := none,
        sacco_id := none, matatu_id := none, cashier_id := none, allocated_at := none }
      hp110 hr110 rfl rfl]
    rfl
  · exact hAlready ⟨"SACCO", "S1"⟩ "*001*1102#" 6
      [{ base := 110, checksum := 2, allocated := true, level := some "SACCO",
         sacco_id := some "S1", matatu_id := none, cashier_id := none,
         allocated_at := some 5 }]
      110 2
      { base := 110, checksum := 2, allocated := true, level := some "SACCO",
        sacco_id := some "S1", matatu_id := none, cashier_id := none,
        allocated_at := some 5 }
      hp110 hr110 rfl rfl

/-- Witness for C9: the second bind attempt of Scenario D, applied through
the theorem's AlreadyAllocated clause. -/
theorem bindSpecific_spec_witness :
    bindSpecific ⟨"SACCO", "S1"⟩ "*001*1102#" 6
      [{ base := 110, checksum := 2, allocated := true, level := some "SACCO",
         sacco_id := some "S1", matatu_id := none, cashier_id := none,
         allocated_at := some 5 }]
      = .error .alreadyAllocated :=
  bindSpecific_spec.2.1 ⟨"SACCO", "S1"⟩ "*001*1102#" 6 _ 110 2
    { base := 110, checksum := 2, allocated := true, level := some "SACCO",
      sacco_id := some "S1", matatu_id := none, cashier_id := none,
      allocated_at := some 5 }
    (by decide) (by simp [digitalRoot, digitalRootLoop, sumDigits]) rfl rfl

/-! ## Validation and status-endpoint theorems -/

/-- C6: a confirmation missing external_reference (checkout_id), amount or
tenant_id (sacco_id) is rejected with the validation error before any
storage access: the handler throws the required-fields message and the
store is left exactly as it was (no transaction upsert, no ledger write). -/
theorem settle_validation_spec (p : CallbackPayload) (now : Nat) (db : DB)
    (h : p.checkout_id = none ∨ p.amount = none ∨ p.sacco_id = none) :
    handleMpesaCallback p now db = .error "checkout_id, amount, sacco_id required"
    ∧ applyCallback p now db = db := by
  have herr : handleMpesaCallback p now db =
      .error "checkout_id, amount, sacco_id required" := by
    unfold handleMpesaCallback
    have hcond : (falsyStr p.checkout_id || p.amount.isNone || falsyStr p.sacco_id) = true := by
      rcases h with h | h | h <;> simp [falsyStr, h]
    simp [hcond]
  refine ⟨herr, ?_⟩
  unfold applyCallback
  rw [herr]

/-- Witness for C6: a confirmation with no checkout_id is rejected and the
empty store is unchanged. -/
theorem settle_validation_spec_witness :
    handleMpesaCallback ⟨none, true, some 40, none, some "S", none, none, none, none⟩ 3 emptyDB
      = .error "checkout_id, amount, sacco_id required"
    ∧ applyCallback ⟨none, true, some 40, none, some "S", none, none, none, none⟩ 3 emptyDB
      = emptyDB :=
  settle_validation_spec ⟨none, true, some 40, none, some "S", none, none, none, none⟩ 3 emptyDB
    (Or.inl rfl)

/-- C10: dev auto-pay is on whenever NODE_ENV is not `production`, and the
status poll is then not read-only: querying a transaction that has been
PENDING for more than 3000 ms updates its stored status to SUCCESS while
leaving the ledger untouched (no ledger entries are written for it). -/
theorem statusAutopay_spec :
    (∀ dv ne : String, ne ≠ "production" → devAutopayOn dv ne = true)
    ∧ (∀ (key : String) (now : Nat) (db : DB) (tx : Tx),
        findTxByKey db key = some tx →
        tx.status = .PENDING →
        3000 < now - tx.created_at →
        statusEndpoint key now true db =
          ((true, .SUCCESS),
            { db with transactions := updateTxStatus tx.id .SUCCESS db.transactions })
        ∧ (statusEndpoint key now true db).2.ledger = db.ledger
        ∧ ∀ u ∈ (statusEndpoint key now true db).2.transactions,
            u.id = tx.id → u.status = .SUCCESS) := by
  constructor
  · intro dv ne h
    simp [devAutopayOn, h]
  · intro key now db tx hfind hst hage
    have heq : statusEndpoint key now true db =
        ((true, .SUCCESS),
          { db with transactions := updateTxStatus tx.id .SUCCESS db.transactions }) := by
      unfold statusEndpoint
      rw [hfind]
      simp [hst, hage]
    refine ⟨heq, by rw [heq], ?_⟩
    intro u hu hid
    rw [heq] at hu
    simp only [updateTxStatus] at hu
    obtain ⟨v, hv, hvu⟩ := List.mem_map.mp hu
    by_cases hvid : v.id = tx.id
    · rw [← hvu, if_pos hvid]
    · rw [← hvu, if_neg hvid] at hid
      exact absurd hid hvid

/-- Witness for C10: a transaction pending since time 0, polled at 4000 ms
with autopay on, is promoted to SUCCESS with the ledger left empty. -/
theorem statusAutopay_spec_witness :
    devAutopayOn "false" "development" = true
    ∧ statusEndpoint "CHK9" 4000 true dbPend =
        ((true, .SUCCESS),
          { dbPend with transactions := updateTxStatus txPend.id .SUCCESS dbPend.transactions })
    ∧ (statusEndpoint "CHK9" 4000 true dbPend).2.ledger = dbPend.ledger :=
  ⟨statusAutopay_spec.1 "false" "development" (by decide),
   (statusAutopay_spec.2 "CHK9" 4000 dbPend txPend rfl rfl (by norm_num [txPend])).1,
   (statusAutopay_spec.2 "CHK9" 4000 dbPend txPend rfl rfl (by norm_num [txPend])).2.1⟩

/-! ## Settlement unfolding lemmas -/

theorem falsyStr_eq_false {o : Option String} (h : falsyStr o = false) :
    ∃ s, o = some s ∧ s ≠ "" := by
  cases o with
  | none => simp [falsyStr] at h
  | some s =>
    simp [falsyStr] at h
    exact ⟨s, rfl, h⟩

theorem applyCallback_invalid (p : CallbackPayload) (now : Nat) (db : DB)
    (h : (falsyStr p.checkout_id || p.amount.isNone || falsyStr p.sacco_id) = true) :
    applyCallback p now db = db := by
  unfold applyCallback handleMpesaCallback
  simp [h]

theorem applyCallback_failed_ledger (p : CallbackPayload) (now : Nat) (db : DB)
    (hcond : (falsyStr p.checkout_id || p.amount.isNone || falsyStr p.sacco_id) = false)
    (h : p.success = false) :
    (applyCallback p now db).ledger = db.ledger := by
  unfold applyCallback handleMpesaCallback
  simp [hcond, h]

theorem dailyGate_none (p : CallbackPayload) (db : DB) (now : Nat)
    (h : p.matatu_id = none) : dailyGate p db now = false := by
  simp [dailyGate, h]

theorem newTx_checkout (b : BaseTx) (nid : Nat) :
    (newTx b nid).mpesa_checkout_id = b.mpesa_checkout_id := rfl

theorem newTx_status (b : BaseTx) (nid : Nat) : (newTx b nid).status = b.status := rfl

theorem applyBase_checkout (b : BaseTx) (t : Tx) :
    (applyBase b t).mpesa_checkout_id = b.mpesa_checkout_id := rfl

theorem applyBase_status (b : BaseTx) (t : Tx) : (applyBase b t).status = b.status := rfl

theorem upsertTx_not_found (l : List Tx) (b : BaseTx) (nid : Nat)
    (h : ∀ t ∈ l, t.mpesa_checkout_id ≠ b.mpesa_checkout_id) :
    upsertTx l b nid = (newTx b nid, l ++ [newTx b nid], nid + 1) := by
  induction l with
  | nil => rfl
  | cons t rest ih =>
    have ht : t.mpesa_checkout_id ≠ b.mpesa_checkout_id := h t (List.mem_cons_self t rest)
    simp only [upsertTx]
    rw [if_neg ht, ih (fun x hx => h x (List.mem_cons_of_mem t hx))]
    simp

theorem upsertTx_append_found (l : List Tx) (t0 : Tx) (b : BaseTx) (nid : Nat)
    (h : ∀ t ∈ l, t.mpesa_checkout_id ≠ b.mpesa_checkout_id)
    (ht : t0.mpesa_checkout_id = b.mpesa_checkout_id) :
    upsertTx (l ++ [t0]) b nid = (applyBase b t0, l ++ [applyBase b t0], nid) := by
  induction l with
  | nil =>
    simp only [List.nil_append, upsertTx]
    rw [if_pos ht]
  | cons t rest ih =>
    have htne : t.mpesa_checkout_id ≠ b.mpesa_checkout_id := h t (List.mem_cons_self t rest)
    simp only [List.cons_append, upsertTx, List.append_eq]
    rw [if_neg htne, ih (fun x hx => h x (List.mem_cons_of_mem t hx))]

/-- Unfolding of one successful settlement call: the transaction table is
updated through `upsertTx` with a base row carrying checkout id `c` and
status SUCCESS, and the ledger is extended, in the same step, by exactly
the mapped image of the full `computeSplits` batch. -/
theorem applyCallback_success_eq (p : CallbackPayload) (c sc : String) (a : ℚ)
    (now : Nat) (db : DB)
    (hc : p.checkout_id = some c) (hc0 : c ≠ "")
    (ha : p.amount = some a)
    (hs : p.sacco_id = some sc) (hs0 : sc ≠ "")
    (hsucc : p.success = true) :
    ∃ bt : BaseTx,
      bt.mpesa_checkout_id = c ∧ bt.status = .SUCCESS ∧
      applyCallback p now db =
        { transactions := (upsertTx db.transactions bt db.nextId).2.1
          ledger := db.ledger ++
            (computeSplits a (getRuleset db sc) (!dailyGate p db now)).map
              (fun s =>
                { transaction_id := (upsertTx db.transactions bt db.nextId).1.id
                  sacco_id := sc
                  matatu_id := p.matatu_id
                  type := s.type
                  amount_kes := s.amount_kes
                  created_at := now })
          sacco_settings := db.sacco_settings
          nextId := (upsertTx db.transactions bt db.nextId).2.2 } := by
  refine ⟨{ sacco_id := sc
            matatu_id := p.matatu_id
            cashier_id := p.cashier_id
            ussd_code := p.ussd_code
            passenger_msisdn := orNull p.msisdn
            fare_amount_kes := round2 a
            service_fee_kes := 2.5
            status := .SUCCESS
            mpesa_checkout_id := c
            mpesa_receipt := orNull p.receipt
            created_at := now }, rfl, rfl, ?_⟩
  unfold applyCallback handleMpesaCallback
  rw [hc, ha, hs, hsucc]
  have h1 : falsyStr (some c) = false := by simp [falsyStr, hc0]
  have h2 : falsyStr (some sc) = false := by simp [falsyStr, hs0]
  rw [h1, h2]
  rfl

/-! ## Re-delivery (idempotence) theorems -/

theorem computeSplits_default_40 :
    computeSplits 40 defaultRuleset true =
      [⟨.FARE, 40⟩, ⟨.SERVICE_FEE, 5/2⟩, ⟨.SACCO_FEE, 50⟩, ⟨.SAVINGS, 2⟩] := by
  norm_num [computeSplits, defaultRuleset, round2]

/-- Counterexample to C1: the code has no "first time SUCCESS" guard, so
delivering the X1 confirmation (success, amount 40, default policy) twice
writes the 4-entry split batch twice — 8 ledger rows instead of one set of
4 (and the spec's Scenario C expected only 2-3 rows for one set). -/
theorem settle_redelivery_counterexample :
    (applyCallback payloadX1 0 emptyDB).ledger.length = 4
    ∧ (applyCallback payloadX1 0 (applyCallback payloadX1 0 emptyDB)).ledger.length = 8 := by
  obtain ⟨bt1, _, _, heq1⟩ :=
    applyCallback_success_eq payloadX1 "X1" "S" 40 0 emptyDB rfl (by decide) rfl rfl
      (by decide) rfl
  have hlen1 : (applyCallback payloadX1 0 emptyDB).ledger.length = 4 := by
    rw [heq1]
    have hr : getRuleset emptyDB "S" = defaultRuleset := rfl
    rw [hr, dailyGate_none payloadX1 emptyDB 0 rfl]
    simp only [Bool.not_false, computeSplits_default_40]
    simp [emptyDB]
  refine ⟨hlen1, ?_⟩
  obtain ⟨bt2, _, _, heq2⟩ :=
    applyCallback_success_eq payloadX1 "X1" "S" 40 0 (applyCallback payloadX1 0 emptyDB)
      rfl (by decide) rfl rfl (by decide) rfl
  rw [heq2]
  have hr2 : getRuleset (applyCallback payloadX1 0 emptyDB) "S" = defaultRuleset := by
    rw [heq1]
    rfl
  rw [hr2, dailyGate_none payloadX1 _ 0 rfl]
  simp only [Bool.not_false, computeSplits_default_40]
  simp [List.length_append, hlen1]

theorem filter_checkout_single (l : List Tx) (u : Tx) (c : String)
    (h : ∀ t ∈ l, t.mpesa_checkout_id ≠ c) (hu : u.mpesa_checkout_id = c) :
    ((l ++ [u]).filter (fun t => decide (t.mpesa_checkout_id = c))).length = 1 := by
  rw [List.filter_append]
  have h1 : l.filter (fun t => decide (t.mpesa_checkout_id = c)) = [] := by
    rw [List.filter_eq_nil_iff]
    intro t ht
    simp [h t ht]
  rw [h1]
  simp [hu]

theorem mem_append_single_status (l : List Tx) (u : Tx) (c : String)
    (h : ∀ t ∈ l, t.mpesa_checkout_id ≠ c) (hu : u.status = .SUCCESS) :
    ∀ t ∈ l ++ [u], t.mpesa_checkout_id = c → t.status = .SUCCESS := by
  intro t ht htc
  rcases List.mem_append.mp ht with h1 | h1
  · exact absurd htc (h t h1)
  · simp at h1
    rw [h1]
    exact hu

/-- C1 amended: re-delivering a successful confirmation leaves exactly one
Transaction row for the reference with the same final status SUCCESS (the
upsert is idempotent on the row), but ledger insertion is NOT skipped on
re-delivery: every successful delivery appends a further non-empty batch of
split entries, so N deliveries produce N batches rather than one set. -/
theorem settle_redelivery_spec (p : CallbackPayload) (c sc : String) (a : ℚ)
    (t1 t2 : Nat) (s0 : DB)
    (hc : p.checkout_id = some c) (hc0 : c ≠ "")
    (ha : p.amount = some a) (hs : p.sacco_id = some sc) (hs0 : sc ≠ "")
    (hsucc : p.success = true)
    (h0 : ∀ t ∈ s0.transactions, t.mpesa_checkout_id ≠ c) :
    ((applyCallback p t1 s0).transactions.filter
        (fun t => decide (t.mpesa_checkout_id = c))).length = 1
    ∧ ((applyCallback p t2 (applyCallback p t1 s0)).transactions.filter
        (fun t => decide (t.mpesa_checkout_id = c))).length = 1
    ∧ (∀ t ∈ (applyCallback p t1 s0).transactions,
        t.mpesa_checkout_id = c → t.status = .SUCCESS)
    ∧ (∀ t ∈ (applyCallback p t2 (applyCallback p t1 s0)).transactions,
        t.mpesa_checkout_id = c → t.status = .SUCCESS)
    ∧ ∃ es : List LedgerEntry, es ≠ []
        ∧ (applyCallback p t2 (applyCallback p t1 s0)).ledger
            = (applyCallback p t1 s0).ledger ++ es := by
  obtain ⟨bt1, hbc1, hbs1, heq1⟩ :=
    applyCallback_success_eq p c sc a t1 s0 hc hc0 ha hs hs0 hsucc
  have hup1 : upsertTx s0.transactions bt1 s0.nextId
      = (newTx bt1 s0.nextId, s0.transactions ++ [newTx bt1 s0.nextId], s0.nextId + 1) :=
    upsertTx_not_found _ _ _ (fun t ht => by rw [hbc1]; exact h0 t ht)
  have htxs1 : (applyCallback p t1 s0).transactions
      = s0.transactions ++ [newTx bt1 s0.nextId] := by
    rw [heq1]
    simp [hup1]
  have hT1c : (newTx bt1 s0.nextId).mpesa_checkout_id = c := by
    rw [newTx_checkout]
    exact hbc1
  have hT1s : (newTx bt1 s0.nextId).status = .SUCCESS := by
    rw [newTx_status]
    exact hbs1
  obtain ⟨bt2, hbc2, hbs2, heq2⟩ :=
    applyCallback_success_eq p c sc a t2 (applyCallback p t1 s0) hc hc0 ha hs hs0 hsucc
  have hup2 : upsertTx (applyCallback p t1 s0).transactions bt2
      (applyCallback p t1 s0).nextId
      = (applyBase bt2 (newTx bt1 s0.nextId),
         s0.transactions ++ [applyBase bt2 (newTx bt1 s0.nextId)],
         (applyCallback p t1 s0).nextId) := by
    rw [htxs1]
    exact upsertTx_append_found s0.transactions (newTx bt1 s0.nextId) bt2 _
      (fun t ht => by rw [hbc2]; exact h0 t ht) (by rw [hT1c, hbc2])
  have htxs2 : (applyCallback p t2 (applyCallback p t1 s0)).transactions
      = s0.transactions ++ [applyBase bt2 (newTx bt1 s0.nextId)] := by
    rw [heq2]
    simp [hup2]
  have hU2c : (applyBase bt2 (newTx bt1 s0.nextId)).mpesa_checkout_id = c := by
    rw [applyBase_checkout]
    exact hbc2
  have hU2s : (applyBase bt2 (newTx bt1 s0.nextId)).status = .SUCCESS := by
    rw [applyBase_status]
    exact hbs2
  refine ⟨?_, ?_, ?_, ?_, ?_⟩
  · rw [htxs1]
    exact filter_checkout_single _ _ _ h0 hT1c
  · rw [htxs2]
    exact filter_checkout_single _ _ _ h0 hU2c
  · rw [htxs1]
    exact mem_append_single_status _ _ _ h0 hT1s
  · rw [htxs2]
    exact mem_append_single_status _ _ _ h0 hU2s
  · refine ⟨(computeSplits a (getRuleset (applyCallback p t1 s0) sc)
        (!dailyGate p (applyCallback p t1 s0) t2)).map
          (fun s =>
            { transaction_id := (upsertTx (applyCallback p t1 s0).transactions bt2
                (applyCallback p t1 s0).nextId).1.id
              sacco_id := sc
              matatu_id := p.matatu_id
              type := s.type
              amount_kes := s.amount_kes
              created_at := t2 }), ?_, ?_⟩
    · have hne := computeSplits_ne_nil a (getRuleset (applyCallback p t1 s0) sc)
        (!dailyGate p (applyCallback p t1 s0) t2)
      simp [hne]
    · rw [heq2]

/-- Witness for C1's amended theorem: the X1 confirmation delivered twice
into the empty store. -/
theorem settle_redelivery_spec_witness :
    ((applyCallback payloadX1 0 emptyDB).transactions.filter
        (fun t => decide (t.mpesa_checkout_id = "X1"))).length = 1
    ∧ ((applyCallback payloadX1 0 (applyCallback payloadX1 0 emptyDB)).transactions.filter
        (fun t => decide (t.mpesa_checkout_id = "X1"))).length = 1
    ∧ (∀ t ∈ (applyCallback payloadX1 0 emptyDB).transactions,
        t.mpesa_checkout_id = "X1" → t.status = .SUCCESS)
    ∧ (∀ t ∈ (applyCallback payloadX1 0 (applyCallback payloadX1 0 emptyDB)).transactions,
        t.mpesa_checkout_id = "X1" → t.status = .SUCCESS)
    ∧ ∃ es : List LedgerEntry, es ≠ []
        ∧ (applyCallback payloadX1 0 (applyCallback payloadX1 0 emptyDB)).ledger
            = (applyCallback payloadX1 0 emptyDB).ledger ++ es :=
  settle_redelivery_spec payloadX1 "X1" "S" 40 0 0 emptyDB rfl (by decide) rfl rfl
    (by decide) rfl (by simp [emptyDB])

/-! ## All-or-nothing theorems -/

/-- C2 amended: within `handleMpesaCallback` itself a successful
confirmation appends the complete computed split batch to the ledger in the
same step (never a strict partial subset of it); however SUCCESS
transactions with no ledger entries are still reachable through the dev
auto-pay status endpoint (see the counterexample). -/
theorem settle_batch_atomic (p : CallbackPayload) (c sc : String) (a : ℚ)
    (now : Nat) (db : DB)
    (hc : p.checkout_id = some c) (hc0 : c ≠ "")
    (ha : p.amount = some a) (hs : p.sacco_id = some sc) (hs0 : sc ≠ "")
    (hsucc : p.success = true) :
    ∃ tid : Nat,
      (applyCallback p now db).ledger
        = db.ledger ++
          (computeSplits a (getRuleset db sc) (!dailyGate p db now)).map
            (fun s =>
              { transaction_id := tid
                sacco_id := sc
                matatu_id := p.matatu_id
                type := s.type
                amount_kes := s.amount_kes
                created_at := now }) := by
  obtain ⟨bt, _, _, heq⟩ :=
    applyCallback_success_eq p c sc a now db hc hc0 ha hs hs0 hsucc
  exact ⟨(upsertTx db.transactions bt db.nextId).1.id, by rw [heq]⟩

/-- Witness for C2's amended theorem: the X1 confirmation into the empty
store appends its whole batch at once. -/
theorem settle_batch_atomic_witness :
    ∃ tid : Nat,
      (applyCallback payloadX1 0 emptyDB).ledger
        = emptyDB.ledger ++
          (computeSplits 40 (getRuleset emptyDB "S") (!dailyGate payloadX1 emptyDB 0)).map
            (fun s =>
              { transaction_id := tid
                sacco_id := "S"
                matatu_id := payloadX1.matatu_id
                type := s.type
                amount_kes := s.amount_kes
                created_at := 0 }) :=
  settle_batch_atomic payloadX1 "X1" "S" 40 0 emptyDB rfl (by decide) rfl rfl
    (by decide) rfl

/-- Counterexample to C2: a reachable state with a SUCCESS transaction and
an empty ledger.  `initiate` inserts a PENDING transaction; polling the
status endpoint 3001 ms later with dev auto-pay on promotes it to SUCCESS
as a side effect while writing no ledger entry at all. -/
theorem success_without_ledger_counterexample :
    initiate 40 "254700000001" "S" none none none "CHK1" 0 emptyDB = .ok (dbC2, 1)
    ∧ (statusEndpoint "CHK1" 3001 true dbC2).2.transactions
        = [{ txC2 with status := .SUCCESS }]
    ∧ (statusEndpoint "CHK1" 3001 true dbC2).2.ledger = [] := by
  have hfind : findTxByKey dbC2 "CHK1" = some txC2 := rfl
  have hstat : statusEndpoint "CHK1" 3001 true dbC2
      = ((true, .SUCCESS),
          { dbC2 with transactions := updateTxStatus txC2.id .SUCCESS dbC2.transactions }) := by
    unfold statusEndpoint
    rw [hfind]
    norm_num [txC2]
  refine ⟨?_, ?_, ?_⟩
  · norm_num [initiate, emptyDB, dbC2, txC2, round2]
    rintro (h | h) <;> simp at h
  · rw [hstat]
    simp [updateTxStatus, dbC2, txC2]
  · rw [hstat]
    simp [dbC2]

/-! ## Daily-fee gate theorems -/

theorem length_filter_map {α β : Type} (f : α → β) (P : β → Bool) (l : List α) :
    ((l.map f).filter P).length = (l.filter (fun s => P (f s))).length := by
  induction l with
  | nil => rfl
  | cons x rest ih =>
    simp only [List.map_cons, List.filter_cons]
    by_cases h : P (f x) <;> simp [h, ih]

theorem computeSplits_sacco_countP_false (a : ℚ) (r : Ruleset) :
    (computeSplits a r false).countP (fun s => decide (s.type = .SACCO_FEE)) = 0 := by
  unfold computeSplits
  split_ifs <;> simp_all [List.countP_cons, List.countP_append]

theorem computeSplits_sacco_countP (a : ℚ) (r : Ruleset) (tk : Bool) :
    (computeSplits a r tk).countP (fun s => decide (s.type = .SACCO_FEE)) ≤ 1 := by
  simp only [computeSplits, List.countP_append]
  cases tk <;> split_ifs <;>
    simp_all [List.countP_cons]

theorem hasPaid_false_count_zero (db : DB) (m : String) (t T : Nat)
    (hsod : startOfDay t = startOfDay T)
    (h : hasPaidSaccoFeeToday db m t = false) :
    saccoFeeCount db m T = 0 := by
  unfold saccoFeeCount
  rw [List.length_eq_zero, List.filter_eq_nil_iff]
  intro e he
  unfold hasPaidSaccoFeeToday at h
  rw [List.any_eq_false] at h
  have h2 := h e he
  rw [hsod] at h2
  simpa using h2

theorem saccoFeeCount_mk (tr : List Tx) (led : List LedgerEntry)
    (st : List (String × Ruleset)) (nid : Nat) (m : String) (T : Nat) :
    saccoFeeCount ⟨tr, led, st, nid⟩ m T
      = (led.filter (fun e => decide (e.matatu_id = some m ∧ e.type = .SACCO_FEE ∧
          startOfDay T ≤ e.created_at))).length := rfl

/-- Count of matching rows in one mapped split batch: zero unless the
batch's vehicle id is the queried one and the batch is dated inside the
queried day, and otherwise the number of SACCO_FEE split items. -/
theorem batch_sacco_countP (tid : Nat) (sc : String) (mat : Option String)
    (t T : Nat) (m : String) (splits : List SplitPart) :
    ((splits.map (fun s =>
        ({ transaction_id := tid
           sacco_id := sc
           matatu_id := mat
           type := s.type
           amount_kes := s.amount_kes
           created_at := t } : LedgerEntry))).filter
      (fun e => decide (e.matatu_id = some m ∧ e.type = .SACCO_FEE ∧
        startOfDay T ≤ e.created_at))).length
    = if mat = some m ∧ startOfDay T ≤ t then
        splits.countP (fun s => decide (s.type = .SACCO_FEE))
      else 0 := by
  rw [length_filter_map]
  by_cases h : mat = some m ∧ startOfDay T ≤ t
  · rw [if_pos h, List.countP_eq_length_filter]
    congr 1
    apply List.filter_congr
    intro s _
    simp [h.1, h.2]
  · rw [if_neg h, List.length_eq_zero, List.filter_eq_nil_iff]
    intro s _
    simp only [decide_eq_true_eq]
    rintro ⟨h1, _, h2⟩
    exact h ⟨h1, h2⟩

/-- One settlement call — of any payload — adds at most one same-day
SACCO_FEE row for a given (non-empty) vehicle id, and adds none when one
already exists for that day. -/
theorem saccoFeeCount_step (p : CallbackPayload) (t T : Nat) (db : DB) (m : String)
    (hm : m ≠ "") (hsod : startOfDay t = startOfDay T) :
    saccoFeeCount (applyCallback p t db) m T ≤ max (saccoFeeCount db m T) 1 := by
  by_cases hval : (falsyStr p.checkout_id || p.amount.isNone || falsyStr p.sacco_id) = true
  · rw [applyCallback_invalid p t db hval]
    exact le_max_left _ _
  · have hvf : (falsyStr p.checkout_id || p.amount.isNone || falsyStr p.sacco_id) = false := by
      cases hb : (falsyStr p.checkout_id || p.amount.isNone || falsyStr p.sacco_id)
      · rfl
      · exact absurd hb hval
    have hcF : falsyStr p.checkout_id = false := by
      cases hx : falsyStr p.checkout_id
      · rfl
      · rw [hx] at hvf; simp at hvf
    have haN : p.amount ≠ none := by
      intro hA
      rw [hA] at hvf
      simp at hvf
    have hsF : falsyStr p.sacco_id = false := by
      cases hx : falsyStr p.sacco_id
      · rfl
      · rw [hx] at hvf
        simp at hvf
    cases hsucc : p.success with
    | false =>
      have hl := applyCallback_failed_ledger p t db hvf hsucc
      unfold saccoFeeCount
      rw [hl]
      exact le_max_left _ _
    | true =>
      obtain ⟨c, hc, hc0⟩ := falsyStr_eq_false hcF
      obtain ⟨a, ha⟩ : ∃ a, p.amount = some a := by
        cases hA : p.amount with
        | none => exact absurd hA haN
        | some a => exact ⟨a, rfl⟩
      obtain ⟨sc, hs, hs0⟩ := falsyStr_eq_false hsF
      obtain ⟨bt, _, _, heq⟩ :=
        applyCallback_success_eq p c sc a t db hc hc0 ha hs hs0 hsucc
      rw [heq, saccoFeeCount_mk, List.filter_append, List.length_append,
        batch_sacco_countP]
      have hfold : (db.ledger.filter (fun e =>
          decide (e.matatu_id = some m ∧ e.type = .SACCO_FEE ∧
            startOfDay T ≤ e.created_at))).length = saccoFeeCount db m T := rfl
      rw [hfold]
      by_cases hcond : p.matatu_id = some m ∧ startOfDay T ≤ t
      · rw [if_pos hcond]
        have hgate : dailyGate p db t = hasPaidSaccoFeeToday db m t := by
          simp [dailyGate, hcond.1, hm]
        cases hpaid : hasPaidSaccoFeeToday db m t with
        | true =>
          rw [hgate, hpaid]
          simp only [Bool.not_true]
          rw [computeSplits_sacco_countP_false]
          simp only [Nat.add_zero]
          exact le_max_left (saccoFeeCount db m T) 1
        | false =>
          have hn0 : saccoFeeCount db m T = 0 :=
            hasPaid_false_count_zero db m t T hsod hpaid
          rw [hn0, hgate, hpaid]
          simp only [Bool.not_false]
          have hle1 := computeSplits_sacco_countP a (getRuleset db sc) true
          calc 0 + (computeSplits a (getRuleset db sc) true).countP
                (fun s => decide (s.type = EntryType.SACCO_FEE))
              ≤ 1 := by simp only [Nat.zero_add]; exact hle1
            _ ≤ max 0 1 := le_max_right _ _
      · rw [if_neg hcond]
        simp only [Nat.add_zero]
        exact le_max_left (saccoFeeCount db m T) 1

/-- C5 amended: two confirmations for the same (non-empty) vehicle id on
the same calendar day, settled one after the other, leave at most one
same-day SACCO_FEE (spec: DAILY_FEE) row in total; the gate expression is
false when the payload has no vehicle id — but precisely because of that a
vehicleless successful confirmation DOES write a SACCO_FEE entry (with a
null vehicle) whenever the policy's rounded daily fee is positive, contrary
to the original claim's "no DAILY_FEE entry is ever written". -/
theorem dailyFee_spec :
    (∀ (p1 p2 : CallbackPayload) (t1 t2 T : Nat) (db : DB) (m : String),
        m ≠ "" → startOfDay t1 = startOfDay T → startOfDay t2 = startOfDay T →
        saccoFeeCount (applyCallback p2 t2 (applyCallback p1 t1 db)) m T
          ≤ max (saccoFeeCount db m T) 1)
    ∧ (∀ (p : CallbackPayload) (db : DB) (now : Nat),
        p.matatu_id = none → dailyGate p db now = false)
    ∧ (∀ (p : CallbackPayload) (c sc : String) (a : ℚ) (now : Nat) (db : DB),
        p.checkout_id = some c → c ≠ "" → p.amount = some a →
        p.sacco_id = some sc → sc ≠ "" → p.success = true →
        p.matatu_id = none →
        0 < round2 (getRuleset db sc).sacco_daily_fee_kes →
        ∃ e ∈ (applyCallback p now db).ledger,
          e.type = .SACCO_FEE ∧ e.matatu_id = none ∧ e.created_at = now) := by
  refine ⟨?_, ?_, ?_⟩
  · intro p1 p2 t1 t2 T db m hm hsod1 hsod2
    have h1 := saccoFeeCount_step p1 t1 T db m hm hsod1
    have h2 := saccoFeeCount_step p2 t2 T (applyCallback p1 t1 db) m hm hsod2
    calc saccoFeeCount (applyCallback p2 t2 (applyCallback p1 t1 db)) m T
        ≤ max (saccoFeeCount (applyCallback p1 t1 db) m T) 1 := h2
      _ ≤ max (max (saccoFeeCount db m T) 1) 1 := max_le_max h1 (le_refl 1)
      _ = max (saccoFeeCount db m T) 1 := by rw [max_assoc, max_self]
  · intro p db now h
    exact dailyGate_none p db now h
  · intro p c sc a now db hc hc0 ha hs hs0 hsucc hmat hdf
    obtain ⟨bt, _, _, heq⟩ :=
      applyCallback_success_eq p c sc a now db hc hc0 ha hs hs0 hsucc
    rw [heq]
    refine ⟨{ transaction_id := (upsertTx db.transactions bt db.nextId).1.id
              sacco_id := sc
              matatu_id := p.matatu_id
              type := EntryType.SACCO_FEE
              amount_kes := round2 (getRuleset db sc).sacco_daily_fee_kes
              created_at := now }, ?_, rfl, by rw [hmat], rfl⟩
    simp only []
    apply List.mem_append_right
    have hsacco : (⟨.SACCO_FEE, round2 (getRuleset db sc).sacco_daily_fee_kes⟩ : SplitPart)
        ∈ computeSplits a (getRuleset db sc) (!dailyGate p db now) := by
      rw [dailyGate_none p db now hmat]
      unfold computeSplits
      simp [hdf]
    exact List.mem_map.mpr ⟨_, hsacco, rfl⟩

/-- Counterexample to C5: the vehicleless confirmation V1 (success,
amount 40, default policy) produces a SACCO_FEE (DAILY_FEE) ledger row even
though its vehicle_id is absent — the false gate means "not yet paid", so
the fee is charged rather than skipped. -/
theorem dailyFee_vehicleless_counterexample :
    ((applyCallback payloadV1 0 emptyDB).ledger.filter
        (fun e => decide (e.type = EntryType.SACCO_FEE))).length = 1 := by
  obtain ⟨bt, _, _, heq⟩ :=
    applyCallback_success_eq payloadV1 "V1" "S" 40 0 emptyDB rfl (by decide) rfl rfl
      (by decide) rfl
  rw [heq]
  have hr : getRuleset emptyDB "S" = defaultRuleset := rfl
  rw [hr, dailyGate_none payloadV1 emptyDB 0 rfl]
  simp only [Bool.not_false, computeSplits_default_40]
  simp [emptyDB]

/-- Witness for C5's amended theorem: the gate is false for the vehicleless
V1 confirmation, it still yields a SACCO_FEE row, and the sequential
same-day bound instantiates at vehicle "M". -/
theorem dailyFee_spec_witness :
    dailyGate payloadV1 emptyDB 0 = false
    ∧ (∃ e ∈ (applyCallback payloadV1 0 emptyDB).ledger,
        e.type = .SACCO_FEE ∧ e.matatu_id = none ∧ e.created_at = 0)
    ∧ saccoFeeCount (applyCallback payloadV1 0 (applyCallback payloadV1 0 emptyDB)) "M" 0
        ≤ max (saccoFeeCount emptyDB "M" 0) 1 :=
  ⟨dailyFee_spec.2.1 payloadV1 emptyDB 0 rfl,
   dailyFee_spec.2.2 payloadV1 "V1" "S" 40 0 emptyDB rfl (by decide) rfl rfl (by decide)
     rfl rfl (by norm_num [getRuleset, emptyDB, defaultRuleset, round2, List.lookup]),
   dailyFee_spec.1 payloadV1 payloadV1 0 0 0 emptyDB "M" (by decide) rfl rfl⟩

end TekeTeke
